import Mathlib

/-!
Verification of the things2reminder export pipeline.

Shallow embedding, in Lean, of the code in
`src/things2reminder/mapper.py` and `src/things2reminder/exporter.py`:
Python strings are Lean strings, Python dicts are insertion-ordered
association lists with overwrite-in-place, absent dictionary keys are
`Option`, and code that can raise returns `Except`.  Library behaviour
the code relies on (`str.strip`, `str.lower`, `str.split`, `int`,
`datetime.fromisoformat`, `str.replace`) is modelled by explicit
executable functions below.
-/

/-- Whitespace characters stripped by the Python `str.strip` method
(ASCII subset, which covers every string arising here). -/
def pyIsSpace (c : Char) : Bool :=
  c = ' ' || c = '\t' || c = '\n' || c = '\r' || c = '\x0b' || c = '\x0c'

/-- Model of Python `str.strip()`: remove leading and trailing whitespace. -/
def pyStrip (s : String) : String :=
  String.mk (((s.data.dropWhile pyIsSpace).reverse.dropWhile pyIsSpace).reverse)

/-- ASCII lower-casing of one character, as Python `str.lower` does on ASCII. -/
def pyLowerChar (c : Char) : Char :=
  if 'A' ≤ c ∧ c ≤ 'Z' then Char.ofNat (c.toNat + 32) else c

/-- Model of Python `str.lower()` (ASCII subset). -/
def pyLower (s : String) : String :=
  String.mk (s.data.map pyLowerChar)

/-- Digit run with optional single underscores between digits, as accepted
by the Python `int` constructor after the optional sign. -/
def pyDigitsTail : List Char → Bool
  | [] => true
  | '_' :: c :: rest => c.isDigit && pyDigitsTail rest
  | '_' :: [] => false
  | c :: rest => c.isDigit && pyDigitsTail rest

/-- Validity of the digit part of a Python integer literal string. -/
def pyDigitsValid : List Char → Bool
  | [] => false
  | c :: rest => c.isDigit && pyDigitsTail rest

/-- Numeric value of a list of decimal digits (underscores already removed). -/
def digitsVal (l : List Char) : Nat :=
  l.foldl (fun a c => a * 10 + (c.toNat - 48)) 0

/-- Model of the Python `int` constructor on an already-stripped string:
an optional sign followed by digits (single underscores allowed between
digits); any other input raises ValueError, modelled as `none`. -/
def pyInt? (s : String) : Option Int :=
  match s.data with
  | '+' :: rest =>
    if pyDigitsValid rest then some ((digitsVal (rest.filter (· ≠ '_')) : Nat) : Int) else none
  | '-' :: rest =>
    if pyDigitsValid rest then some (-((digitsVal (rest.filter (· ≠ '_')) : Nat) : Int)) else none
  | l =>
    if pyDigitsValid l then some ((digitsVal (l.filter (· ≠ '_')) : Nat) : Int) else none

/-- Split a character list at every occurrence of `c`, keeping empty pieces,
as Python `str.split(sep)` does (so the empty string yields one empty piece). -/
def splitOnCharList (c : Char) : List Char → List (List Char)
  | [] => [[]]
  | x :: t =>
    let r := splitOnCharList c t
    if x = c then [] :: r
    else
      match r with
      | h :: t2 => (x :: h) :: t2
      | [] => [[x]]

/-- Model of Python `str.split(sep)` for a one-character separator. -/
def pySplitOnChar (c : Char) (s : String) : List String :=
  (splitOnCharList c s.data).map String.mk

/-- Break a character list at the first occurrence of `c`; `none` when `c`
does not occur.  Models Python `str.split(sep, 1)` together with the
`sep in s` membership test. -/
def breakAtChar (c : Char) : List Char → Option (List Char × List Char)
  | [] => none
  | x :: t =>
    if x = c then some ([], t)
    else (breakAtChar c t).map (fun p => (x :: p.1, p.2))

/-- Model of `line.split(sep, 1)` on the first colon: `none` when the line has
no colon, otherwise the text left of the first colon and everything after it. -/
def splitFirstColon (line : String) : Option (String × String) :=
  (breakAtChar ':' line.data).map (fun p => (String.mk p.1, String.mk p.2))

/-- Model of Python `sep.join(list)`. -/
def joinSep (sep : String) : List String → String
  | [] => ""
  | [s] => s
  | s :: rest => s ++ sep ++ joinSep sep rest

/-- First-match lookup in an association list (together with `dictInsert`
this models a Python dict). -/
def alookup [DecidableEq κ] : List (κ × β) → κ → Option β
  | [], _ => none
  | (a, b) :: t, k => if a = k then some b else alookup t k

/-- Insertion into an association list, overwriting an existing binding in
place as Python dict assignment does (insertion order preserved). -/
def dictInsert [DecidableEq κ] : List (κ × β) → κ → β → List (κ × β)
  | [], k, v => [(k, v)]
  | (a, b) :: t, k, v => if a = k then (k, v) :: t else (a, b) :: dictInsert t k v

/-- Naive aware/naive timestamp as produced by `datetime.fromisoformat`:
calendar fields plus an optional UTC offset in minutes. -/
structure PyDateTime where
  year : Nat := 1
  month : Nat := 1
  day : Nat := 1
  hour : Nat := 0
  minute : Nat := 0
  second : Nat := 0
  microsecond : Nat := 0
  tz : Option Int := none
deriving DecidableEq

/-- Gregorian leap-year test, as in the Python `datetime` module. -/
def isLeapYear (y : Nat) : Bool :=
  (y % 4 = 0 && y % 100 ≠ 0) || y % 400 = 0

/-- Number of days in a month of a given year. -/
def daysInMonth (y m : Nat) : Nat :=
  if m = 2 then (if isLeapYear y then 29 else 28)
  else if m = 4 ∨ m = 6 ∨ m = 9 ∨ m = 11 then 30
  else 31

/-- Read exactly `n` decimal digits from the front of a character list,
accumulating their value; `none` if fewer digits are available. -/
def readNatAux (acc : Nat) : Nat → List Char → Option (Nat × List Char)
  | 0, l => some (acc, l)
  | _ + 1, [] => none
  | n + 1, c :: t =>
    if c.isDigit then readNatAux (acc * 10 + (c.toNat - 48)) n t else none

/-- Read exactly `n` decimal digits. -/
def readNatN (n : Nat) (l : List Char) : Option (Nat × List Char) :=
  readNatAux 0 n l

/-- Consume one expected character. -/
def expectChar (c : Char) : List Char → Option (List Char)
  | [] => none
  | x :: t => if x = c then some t else none

/-- Read a fractional-second group of one to six digits, scaled to
microseconds. -/
def readFrac (l : List Char) : Option (Nat × List Char) :=
  let p := l.span (fun c => c.isDigit)
  if p.1.length = 0 ∨ p.1.length > 6 then none
  else some (digitsVal p.1 * 10 ^ (6 - p.1.length), p.2)

/-- Read the `HH[:MM[:SS[.ffffff]]]` time-of-day part of an ISO string. -/
def readHMS (l : List Char) : Option (Nat × Nat × Nat × Nat × List Char) :=
  match readNatN 2 l with
  | none => none
  | some (h, r1) =>
    match r1 with
    | ':' :: r2 =>
      match readNatN 2 r2 with
      | none => none
      | some (mi, r3) =>
        match r3 with
        | ':' :: r4 =>
          match readNatN 2 r4 with
          | none => none
          | some (s, r5) =>
            match r5 with
            | '.' :: r6 =>
              match readFrac r6 with
              | none => none
              | some (us, r7) => some (h, mi, s, us, r7)
            | _ => some (h, mi, s, 0, r5)
        | _ => some (h, mi, 0, 0, r3)
    | _ => some (h, 0, 0, 0, r1)

/-- Read a `±HH:MM` UTC-offset suffix (the form produced by the Z
replacement in the source); empty input means no offset. -/
def readTz (l : List Char) : Option (Option Int × List Char) :=
  match l with
  | [] => some (none, [])
  | '+' :: r =>
    match readNatN 2 r with
    | some (th, ':' :: r2) =>
      match readNatN 2 r2 with
      | some (tm, r3) => if th ≤ 23 ∧ tm ≤ 59 then some (some ((th * 60 + tm : Nat) : Int), r3) else none
      | none => none
    | _ => none
  | '-' :: r =>
    match readNatN 2 r with
    | some (th, ':' :: r2) =>
      match readNatN 2 r2 with
      | some (tm, r3) => if th ≤ 23 ∧ tm ≤ 59 then some (some (-((th * 60 + tm : Nat) : Int)), r3) else none
      | none => none
    | _ => none
  | _ => none

/-- Model of `datetime.fromisoformat` on the ISO-8601 forms relevant here:
`YYYY-MM-DD`, optionally followed by any one separator character and
`HH[:MM[:SS[.ffffff]]]`, optionally followed by a `±HH:MM` offset.
Out-of-range fields or trailing text raise ValueError, modelled as `none`. -/
def pyFromIsoformat (s : String) : Option PyDateTime :=
  match readNatN 4 s.data with
  | none => none
  | some (y, r1) =>
    match expectChar '-' r1 with
    | none => none
    | some r2 =>
      match readNatN 2 r2 with
      | none => none
      | some (mo, r3) =>
        match expectChar '-' r3 with
        | none => none
        | some r4 =>
          match readNatN 2 r4 with
          | none => none
          | some (d, r5) =>
            if 1 ≤ y ∧ y ≤ 9999 ∧ 1 ≤ mo ∧ mo ≤ 12 ∧ 1 ≤ d ∧ d ≤ daysInMonth y mo then
              match r5 with
              | [] => some { year := y, month := mo, day := d }
              | _sep :: r6 =>
                match readHMS r6 with
                | none => none
                | some (h, mi, sec, us, r7) =>
                  if h ≤ 23 ∧ mi ≤ 59 ∧ sec ≤ 59 then
                    match readTz r7 with
                    | none => none
                    | some (tz, r8) =>
                      if r8 = [] then
                        some { year := y, month := mo, day := d, hour := h, minute := mi,
                               second := sec, microsecond := us, tz := tz }
                      else none
                  else none
            else none

/-- Model of `date_str.replace('Z', '+00:00')` from `parse_things_date`. -/
def pyReplaceZ (s : String) : String :=
  String.mk (s.data.foldr
    (fun c acc => if c = 'Z' then '+' :: '0' :: '0' :: ':' :: '0' :: '0' :: acc else c :: acc) [])

/-- Model of `datetime - timedelta(days=1)`: roll the calendar date back one
day, leaving the time of day and offset unchanged. -/
def subOneDay (dt : PyDateTime) : PyDateTime :=
  if dt.day > 1 then { dt with day := dt.day - 1 }
  else if dt.month > 1 then { dt with month := dt.month - 1, day := daysInMonth dt.year (dt.month - 1) }
  else { dt with year := dt.year - 1, month := 12, day := 31 }

/-- Zero-padded two-digit rendering, as `strftime` uses for month and day. -/
def pad2 (n : Nat) : String :=
  if n < 10 then "0" ++ Nat.repr n else Nat.repr n

/-- Zero-padded four-digit rendering, as `strftime` uses for the year. -/
def pad4 (n : Nat) : String :=
  if n < 10 then "000" ++ Nat.repr n
  else if n < 100 then "00" ++ Nat.repr n
  else if n < 1000 then "0" ++ Nat.repr n
  else Nat.repr n

/-- Model of `date_obj.strftime("%Y-%m-%d")` from `get_reminder_notes_from_todo`. -/
def strftimeYMD (dt : PyDateTime) : String :=
  pad4 dt.year ++ "-" ++ pad2 dt.month ++ "-" ++ pad2 dt.day

/-- RemindKit priority values (`pyremindkit.Priority`). -/
inductive Priority where
  | NONE
  | LOW
  | MEDIUM
  | HIGH
deriving DecidableEq

/-- Checklist item of a Things todo: the dictionary fields read by the code. -/
structure ChecklistItem where
  title : Option String := none
  status : Option String := none
deriving DecidableEq

/-- Things todo record: the dictionary fields read by the code, each `none`
when the key is absent. -/
structure Todo where
  uuid : Option String := none
  title : Option String := none
  notes : Option String := none
  status : Option String := none
  start : Option String := none
  deadline : Option String := none
  when : Option String := none
  tags : Option (List String) := none
  checklist : Option (List ChecklistItem) := none
  priority : Option Int := none
  stop_date : Option String := none
  project : Option String := none
  area : Option String := none
deriving DecidableEq

/-- Python truthiness of an optional string field: present and non-empty. -/
def truthyStr : Option String → Bool
  | none => false
  | some s => decide (s ≠ "")

/-- Python truthiness of an optional list field: present and non-empty
(the additional `len(...) > 0` check in the source is the same test). -/
def truthyList : Option (List α) → Bool
  | none => false
  | some l => !l.isEmpty

/-- Translation of `ThingsToRemindersMapper.map_priority`
(`mapper.py` lines 12-31): table lookup with default `Priority.NONE`. -/
def map_priority (things_priority : Int) : Priority :=
  if things_priority = 0 then Priority.NONE
  else if things_priority = 1 then Priority.LOW
  else if things_priority = 2 then Priority.MEDIUM
  else if things_priority = 3 then Priority.HIGH
  else Priority.NONE

/-- Translation of `ThingsToRemindersMapper.parse_things_date`
(`mapper.py` lines 33-54): falsy input yields `None`; otherwise
`datetime.fromisoformat(date_str.replace('Z', '+00:00'))`, with a parse
error (ValueError) yielding `None`. -/
def parse_things_date : Option String → Option PyDateTime
  | none => none
  | some s => if s = "" then none else pyFromIsoformat (pyReplaceZ s)

/-- Translation of `ThingsToRemindersMapper.get_reminder_notes_from_todo`
(`mapper.py` lines 56-105): accumulate sections, then join with blank lines. -/
def get_reminder_notes_from_todo (todo : Todo) : String :=
  let notes_sections : List String := []
  let notes_sections :=
    if truthyStr todo.notes then notes_sections ++ [todo.notes.getD ""] else notes_sections
  let status := todo.status.getD "incomplete"
  let notes_sections :=
    if status = "completed" then notes_sections ++ ["Status: ✓ Completed"]
    else if status = "canceled" then notes_sections ++ ["Status: ✗ Canceled"]
    else notes_sections
  let notes_sections :=
    if truthyStr todo.start then notes_sections ++ ["Start: " ++ todo.start.getD ""]
    else notes_sections
  let notes_sections :=
    if truthyStr todo.deadline then
      match parse_things_date todo.deadline with
      | some date_obj => notes_sections ++ ["Deadline: " ++ strftimeYMD date_obj]
      | none => notes_sections
    else notes_sections
  let notes_sections :=
    if truthyList todo.checklist then
      notes_sections ++
        [joinSep "\n" ("Checklist:" ::
          (todo.checklist.getD []).map (fun item =>
            (if item.status = some "completed" then "✓" else "☐") ++ " " ++ item.title.getD ""))]
    else notes_sections
  let notes_sections := notes_sections ++ ["Imported from Things - UUID: " ++ todo.uuid.getD ""]
  joinSep "\n\n" notes_sections

/-- Parameter dictionary handed to `create_reminder`; the last four keys are
only present when set, hence the `Option` wrappers. -/
structure ReminderParams where
  title : String
  notes : String
  due_date : Option PyDateTime
  priority : Priority
  calendar_id : Option String
  tags : List String
  completed : Option Bool := none
  completion_date : Option (Option String) := none
  early_reminder_date : Option PyDateTime := none
  flagged : Option Bool := none
deriving DecidableEq

/-- Translation of `ThingsToRemindersMapper.get_reminder_params_from_todo`
(`mapper.py` lines 107-161). -/
def get_reminder_params_from_todo (todo : Todo) (calendar_id : Option String) : ReminderParams :=
  let title := todo.title.getD "Untitled Task"
  let notes := get_reminder_notes_from_todo todo
  let due_date :=
    if truthyStr todo.deadline then parse_things_date todo.deadline
    else if truthyStr todo.when then parse_things_date todo.when
    else none
  let priority := map_priority (todo.priority.getD 0)
  let tags := if truthyList todo.tags then todo.tags.getD [] else []
  let params : ReminderParams :=
    { title := title, notes := notes, due_date := due_date, priority := priority,
      calendar_id := calendar_id, tags := tags }
  let params :=
    if todo.status = some "completed" then
      { params with completed := some true, completion_date := some todo.stop_date }
    else params
  if truthyStr todo.deadline ∧ todo.start = some "Anytime" then
    match due_date with
    | some d => { params with early_reminder_date := some (subOneDay d), flagged := some true }
    | none => params
  else params

/-- Destination calendar record (`pyremindkit` calendar: name and id). -/
structure Calendar where
  name : String
  id : String
deriving DecidableEq

/-- Destination reminder record returned by `create_reminder`. -/
structure Reminder where
  id : String
deriving DecidableEq

/-- Unhandled Python exception escaping `export_todos`. -/
inductive PyErr where
  | nameError (varName : String)
deriving DecidableEq

/-- Collaborators of `export_todos`: the default calendar, the calendar
list, the external classifier (standard output as a function of the user
prompt), and the destination creation call. -/
structure ExportEnv where
  defaultCalendar : Calendar
  calendars : List Calendar
  llmStdout : String → String
  createReminder : ReminderParams → Except String Reminder

/-- Translation of `exporter.py` lines 131-134: the dict from lower-cased
calendar name to calendar id. -/
def buildCalendarDict (calendars : List Calendar) : List (String × String) :=
  calendars.foldl (fun d c => dictInsert d (pyLower c.name) c.id) []

/-- Attempted assignment extracted from one classifier output line
(`exporter.py` lines 170-178): the line must contain a colon, the text left
of the first colon must parse as an integer after stripping, and the
stripped, lower-cased text right of the first colon must be a key of the
calendar dict; otherwise `none` (the line is skipped with a warning). -/
def lineAssign? (calendar_dict : List (String × String)) (line : String) : Option (Int × String) :=
  match splitFirstColon line with
  | some (index_str, rest) =>
    match pyInt? (pyStrip index_str) with
    | some index =>
      let calendar_name := pyLower (pyStrip rest)
      if (alookup calendar_dict calendar_name).isSome then some (index, calendar_name) else none
    | none => none
  | none => none

/-- One iteration of the result-parsing loop of `exporter.py` lines 169-178. -/
def parseStep (calendar_dict : List (String × String)) (acc : List (Int × String)) (line : String) :
    List (Int × String) :=
  match lineAssign? calendar_dict line with
  | some (index, calendar_name) => dictInsert acc index calendar_name
  | none => acc

/-- Translation of the classifier output parser (`exporter.py` lines
167-178): strip the stdout, split into lines, and fold the accepted
assignments into a dict; parsing is total and never raises. -/
def parse_calendar_assignments (stdout : String) (calendar_dict : List (String × String)) :
    List (Int × String) :=
  (pySplitOnChar '\n' (pyStrip stdout)).foldl (parseStep calendar_dict) []

/-- Declarative reading of one accepted classifier line, used to state the
parser claim: the line has a colon, its left part parses as `idx` after
stripping, and its stripped lower-cased right part is the name `name`,
present in the calendar dict. -/
def lineAssigns (calendar_dict : List (String × String)) (line : String) (idx : Int)
    (name : String) : Prop :=
  ∃ l r, splitFirstColon line = some (l, r) ∧ pyInt? (pyStrip l) = some idx ∧
    pyLower (pyStrip r) = name ∧ (alookup calendar_dict name).isSome = true

/-- Translation of the batch prompt construction (`exporter.py` lines
143-148). -/
def buildBatchPrompt (batch : List Todo) : String :=
  joinSep "\n" (batch.enum.map (fun p =>
    Nat.repr p.1 ++ ": pick the best calendar for this todo: " ++ p.2.title.getD "Unnamed Todo"))

/-- Fuel-indexed batching; with fuel at least the list length this yields
the slices `todos[i:i+300]` of `exporter.py` lines 137-139. -/
def chunksGo : Nat → List α → List (List α)
  | _, [] => []
  | 0, l => [l]
  | fuel + 1, a :: t => ((a :: t).take 300) :: chunksGo fuel ((a :: t).drop 300)

/-- Batches of size 300, as produced by `range(0, len(todos), 300)`. -/
def chunks300 (l : List α) : List (List α) :=
  chunksGo l.length l

/-- Translation of the per-batch body of `export_todos` (`exporter.py`
lines 138-248).  After building the batch prompt, invoking the classifier
and parsing the calendar assignments, line 182 reads `llm_tagging_result`,
a variable that is never assigned anywhere in the function (the subprocess
call that would produce it, lines 162-165, is commented out), so Python
raises NameError here; the rest of the loop body (lines 192-248, including
every `create_reminder` call) is unreachable and the exception propagates
out of `export_todos`. -/
def exportBatches (env : ExportEnv) (calendar_dict : List (String × String)) :
    List (List Todo) → List Reminder → Except PyErr (List Reminder)
  | [], created_reminders => Except.ok created_reminders
  | batch_todos :: _rest, _created_reminders =>
    let batch_prompt := buildBatchPrompt batch_todos
    let stdout := env.llmStdout batch_prompt
    let _calendar_assignments := parse_calendar_assignments stdout calendar_dict
    Except.error (PyErr.nameError "llm_tagging_result")

/-- Translation of `ThingsToRemindersExporter.export_todos` (`exporter.py`
lines 110-249) on an explicit todo list. -/
def export_todos (env : ExportEnv) (todos : List Todo) : Except PyErr (List Reminder) :=
  let _default_calendar := env.defaultCalendar
  let calendar_dict := buildCalendarDict env.calendars
  exportBatches env calendar_dict (chunks300 todos) []

/-- Translation of the per-todo calendar resolution (`exporter.py` lines
202-204): `calendar_assignments.get(j, list(calendar_dict.keys())[0])`
followed by `calendar_dict.get(calendar_name_lower, default_calendar.id)`.
The result is `none` exactly when `list(calendar_dict.keys())[0]` raises
IndexError on an empty dict. -/
def resolve_calendar (calendar_assignments : List (Int × String))
    (calendar_dict : List (String × String)) (default_id : String) (j : Int) : Option String :=
  let calendar_name_lower? :=
    match alookup calendar_assignments j with
    | some n => some n
    | none => (calendar_dict.map Prod.fst).head?
  calendar_name_lower?.map (fun nm => (alookup calendar_dict nm).getD default_id)

/-- Option record of `export_with_options` (`exporter.py` lines 268-277). -/
structure FilterOptions where
  include_completed : Bool := false
  include_canceled : Bool := false
  only_with_deadlines : Bool := false
  only_today : Bool := false
  only_inbox : Bool := false
  only_upcoming : Bool := false
  only_someday : Bool := false
  completed_last : Option String := none
  filter_tag : Option String := none

/-- Source collaborator views read by `export_with_options`. -/
structure ThingsEnv where
  today_tasks : List Todo := []
  inbox_tasks : List Todo := []
  upcoming_tasks : List Todo := []
  someday_tasks : List Todo := []
  deadline_tasks : List Todo := []
  active_todos : List Todo := []
  completed_tasks : Option String → List Todo := fun _ => []
  canceled_tasks : List Todo := []

/-- Translation of the `add_todos` helper (`exporter.py` lines 305-310):
the state is the pair (todos_to_export, todo_uuids); a todo is appended
only when its uuid is truthy and not yet seen. -/
def addTodos (st : List Todo × List String) (todo_list : List Todo) :
    List Todo × List String :=
  todo_list.foldl
    (fun st todo =>
      match todo.uuid with
      | some u => if u ≠ "" ∧ u ∉ st.2 then (st.1 ++ [todo], st.2 ++ [u]) else st
      | none => st)
    st

/-- Tag names of a todo resolved through the tag map (`exporter.py` lines
344-347): keep the tag uuids present in the map and read their titles. -/
def tagNames (tag_map : List (String × String)) (todo : Todo) : List String :=
  ((todo.tags.getD []).filter (fun tu => (alookup tag_map tu).isSome)).map
    (fun tu => (alookup tag_map tu).getD "")

/-- Translation of the task-selection part of `export_with_options`
(`exporter.py` lines 300-364), returning the final pair
(todos_to_export, todo_uuids). -/
def select_state (env : ThingsEnv) (tag_map : List (String × String)) (o : FilterOptions) :
    List Todo × List String :=
  let st : List Todo × List String := ([], [])
  let st := if o.only_today then addTodos st env.today_tasks else st
  let st := if o.only_inbox then addTodos st env.inbox_tasks else st
  let st := if o.only_upcoming then addTodos st env.upcoming_tasks else st
  let st := if o.only_someday then addTodos st env.someday_tasks else st
  let st := if o.only_with_deadlines then addTodos st env.deadline_tasks else st
  let st :=
    if !(o.only_today || o.only_inbox || o.only_upcoming || o.only_someday ||
        o.only_with_deadlines) then addTodos st env.active_todos
    else st
  let st :=
    if truthyStr o.filter_tag then
      (st.1.filter (fun todo => (tagNames tag_map todo).contains (o.filter_tag.getD "")), st.2)
    else st
  let st :=
    if o.include_completed then
      addTodos st (env.completed_tasks
        (if truthyStr o.completed_last then o.completed_last else none))
    else st
  let st := if o.include_canceled then addTodos st env.canceled_tasks else st
  st

/-- The list of tasks selected for export by `export_with_options`. -/
def select_todos_with_options (env : ThingsEnv) (tag_map : List (String × String))
    (o : FilterOptions) : List Todo :=
  (select_state env tag_map o).1

/-- De-duplication invariant of the selection state: the mapped uuids are
pairwise distinct and every selected uuid is recorded in the seen set. -/
def SelInv (st : List Todo × List String) : Prop :=
  (st.1.map Todo.uuid).Nodup ∧ ∀ t ∈ st.1, ∀ u, t.uuid = some u → u ∈ st.2

/-- Things area record: the fields read by `process_areas`. -/
structure AreaRec where
  uuid : Option String := none
  title : Option String := none
deriving DecidableEq

/-- Things project record: the fields read by `process_projects`. -/
structure ProjectRec where
  uuid : Option String := none
  title : Option String := none
deriving DecidableEq

/-- Things tag record: the fields read by `process_tags`. -/
structure TagRec where
  uuid : Option String := none
  title : Option String := none
deriving DecidableEq

/-- Source collaborator data for the metadata loaders. -/
structure MetaEnv where
  areas : List AreaRec := []
  projects : List ProjectRec := []
  tags : List TagRec := []

/-- Exporter metadata caches plus counters of the collaborator fetches
(`get_areas`, `get_projects`, `get_tags`) performed so far in the run. -/
structure MetaState where
  area_map : List (Option String × AreaRec) := []
  project_map : List (Option String × ProjectRec) := []
  tag_map : List (Option String × String) := []
  get_areas_calls : Nat := 0
  get_projects_calls : Nat := 0
  get_tags_calls : Nat := 0
deriving DecidableEq

/-- Fold a list of records into an association map keyed and valued by the
given projections, overwriting duplicates (dict assignment in a loop). -/
def buildFold [DecidableEq κ] (key : ρ → κ) (val : ρ → β) (l : List ρ) (m : List (κ × β)) :
    List (κ × β) :=
  l.foldl (fun m r => dictInsert m (key r) (val r)) m

/-- Translation of `ThingsToRemindersExporter.process_areas` (`exporter.py`
lines 47-65): fetch the areas (the call is counted), store each under its
uuid, return the map.  There is no guard against refetching. -/
def process_areas (env : MetaEnv) (s : MetaState) :
    MetaState × List (Option String × AreaRec) :=
  let areas := env.areas
  let m := buildFold AreaRec.uuid (fun a => a) areas s.area_map
  ({ s with area_map := m, get_areas_calls := s.get_areas_calls + 1 }, m)

/-- Translation of `ThingsToRemindersExporter.process_projects`
(`exporter.py` lines 67-85). -/
def process_projects (env : MetaEnv) (s : MetaState) :
    MetaState × List (Option String × ProjectRec) :=
  let projects := env.projects
  let m := buildFold ProjectRec.uuid (fun p => p) projects s.project_map
  ({ s with project_map := m, get_projects_calls := s.get_projects_calls + 1 }, m)

/-- Translation of `ThingsToRemindersExporter.process_tags` (`exporter.py`
lines 87-102): the stored value is `tag.get('title', 'Unnamed Tag')`. -/
def process_tags (env : MetaEnv) (s : MetaState) :
    MetaState × List (Option String × String) :=
  let tags := env.tags
  let m := buildFold TagRec.uuid (fun t => t.title.getD "Unnamed Tag") tags s.tag_map
  ({ s with tag_map := m, get_tags_calls := s.get_tags_calls + 1 }, m)

/-- Concrete environment used by closed evaluations: one calendar, a fixed
classifier reply, a creation call that succeeds. -/
def envOk : ExportEnv :=
  { defaultCalendar := { name := "Default", id := "d0" },
    calendars := [{ name := "Personal", id := "p1" }],
    llmStdout := fun _ => "0: personal",
    createReminder := fun _ => Except.ok { id := "r0" } }

/-- Concrete environment whose creation call always fails, for the
failure-isolation claim. -/
def envFail : ExportEnv :=
  { defaultCalendar := { name := "Default", id := "d0" },
    calendars := [{ name := "Personal", id := "p1" }],
    llmStdout := fun _ => "0: personal\n1: personal",
    createReminder := fun _ => Except.error "creation failed" }

/-- Concrete minimal todo. -/
def todoBlank : Todo := {}

/-- Concrete todo whose deadline parses and whose start category is Anytime. -/
def todoAnytime : Todo := { deadline := some "2023-10-15T14:30:00Z", start := some "Anytime" }

/-- Concrete todo with an unparseable deadline and start category Anytime. -/
def todoBadDeadline : Todo := { deadline := some "not a date", start := some "Anytime" }

/-- Concrete todo whose title key is present but empty. -/
def todoEmptyTitle : Todo := { title := some "" }

/-- The timestamp carried by `"2023-10-15T14:30:00Z"`. -/
def dtOct15 : PyDateTime :=
  { year := 2023, month := 10, day := 15, hour := 14, minute := 30, second := 0,
    microsecond := 0, tz := some 0 }

theorem alookup_dictInsert [DecidableEq κ] (d : List (κ × β)) (k k2 : κ) (v : β) :
    alookup (dictInsert d k v) k2 = if k2 = k then some v else alookup d k2 := by
  induction d with
  | nil =>
    simp only [dictInsert, alookup]
    by_cases h : k = k2
    · subst h; simp
    · rw [if_neg h, if_neg (fun hh => h hh.symm)]
  | cons hd t ih =>
    obtain ⟨a, b⟩ := hd
    simp only [dictInsert]
    by_cases hak : a = k
    · subst hak
      simp only [if_pos rfl, alookup]
      by_cases h : a = k2
      · subst h; simp
      · rw [if_neg h, if_neg (fun hh => h hh.symm), if_neg h]
    · rw [if_neg hak]
      simp only [alookup, ih]
      by_cases h1 : a = k2
      · subst h1
        have hk2 : ¬(a = k) := hak
        rw [if_pos rfl, if_neg hk2, if_pos rfl]
      · rw [if_neg h1]
        by_cases h2 : k2 = k
        · rw [if_pos h2, if_pos h2]
        · rw [if_neg h2, if_neg h2, if_neg h1]

theorem find?_append (p : α → Bool) (l1 l2 : List α) :
    (l1 ++ l2).find? p = ((l1.find? p).map some).getD (l2.find? p) := by
  induction l1 with
  | nil => simp
  | cons a t ih =>
    by_cases h : p a <;> simp [List.find?, h, ih]

theorem buildFold_alookup [DecidableEq κ] (key : ρ → κ) (val : ρ → β) (l : List ρ) :
    ∀ (m : List (κ × β)) (k : κ),
      alookup (buildFold key val l m) k =
        match l.reverse.find? (fun r => decide (key r = k)) with
        | some r => some (val r)
        | none => alookup m k := by
  induction l with
  | nil => intro m k; simp [buildFold]
  | cons r t ih =>
    intro m k
    have hstep : buildFold key val (r :: t) m = buildFold key val t (dictInsert m (key r) (val r)) := rfl
    rw [hstep, ih]
    have hrev : (r :: t).reverse = t.reverse ++ [r] := by simp
    rw [hrev, find?_append]
    cases hf : t.reverse.find? (fun r2 => decide (key r2 = k)) with
    | some r2 => simp
    | none =>
      by_cases hk : key r = k
      · simp [List.find?, hk, alookup_dictInsert]
      · simp [List.find?, hk, alookup_dictInsert, Ne.symm hk]

theorem buildFold_idem [DecidableEq κ] (key : ρ → κ) (val : ρ → β) (l : List ρ)
    (m : List (κ × β)) (k : κ) :
    alookup (buildFold key val l (buildFold key val l m)) k =
      alookup (buildFold key val l m) k := by
  rw [buildFold_alookup, buildFold_alookup]
  cases hf : l.reverse.find? (fun r => decide (key r = k)) with
  | some r => simp
  | none => simp [buildFold_alookup, hf]

/-- C1 (code bug): with two todos and a destination whose creation call
always fails, `export_todos` does not catch anything per task and does not
return the list of successfully created reminders — it aborts with the
unhandled NameError on `llm_tagging_result` before any `create_reminder`
call is reached, so no task in the batch is processed at all. -/
theorem export_todos_aborts_before_creation :
    export_todos envFail [{ title := some "Task 1" }, { title := some "Task 2" }] =
      Except.error (PyErr.nameError "llm_tagging_result") ∧
    export_todos envFail [{ title := some "Task 1" }, { title := some "Task 2" }] ≠
      Except.ok [] := by
  constructor
  · rfl
  · intro h
    simp [export_todos, chunks300, chunksGo, exportBatches] at h

/-- C2: for every environment, `export_todos` on a non-empty todo list
raises the unhandled NameError on the never-assigned variable
`llm_tagging_result` while parsing tag assignments, before any reminder is
created, and on the empty list returns the empty list without error. -/
theorem export_todos_name_error (env : ExportEnv) (todos : List Todo) :
    (todos ≠ [] → export_todos env todos = Except.error (PyErr.nameError "llm_tagging_result")) ∧
    export_todos env [] = Except.ok [] := by
  constructor
  · intro h
    cases todos with
    | nil => exact absurd rfl h
    | cons a t => rfl
  · rfl

/-- C2 witness: the theorem applied to a concrete environment, a concrete
singleton todo list and the empty list. -/
theorem export_todos_name_error_witness :
    export_todos envOk [todoBlank] = Except.error (PyErr.nameError "llm_tagging_result") ∧
    export_todos envOk [] = Except.ok [] :=
  ⟨(export_todos_name_error envOk [todoBlank]).1 (by simp),
   (export_todos_name_error envOk []).2⟩

/-- C3 counterexample: with no assignment for index 0, a calendar dict whose
first entry is the "work" calendar, and default calendar id "d0", the
resolved calendar is the first available calendar id "w1", not the
destination-default id "d0" — refuting the claim as stated. -/
theorem resolve_calendar_fallback_counterexample :
    resolve_calendar [] [("work", "w1"), ("personal", "p2")] "d0" 0 = some "w1" ∧
    resolve_calendar [] [("work", "w1"), ("personal", "p2")] "d0" 0 ≠ some "d0" := by
  decide

/-- C3 amended: a task whose batch-local index has no valid classifier
assignment is placed in the first available calendar (the first entry of
the calendar dict), and a task with an assignment is placed in the
calendar looked up under the assigned name, with the destination-default
id used only when that name is absent from the dict. -/
theorem resolve_calendar_first_available (a : List (Int × String))
    (dict : List (String × String)) (dflt : String) (j : Int) :
    (∀ k v rest, dict = (k, v) :: rest → alookup a j = none →
      resolve_calendar a dict dflt j = some v) ∧
    (∀ n, alookup a j = some n →
      resolve_calendar a dict dflt j = some ((alookup dict n).getD dflt)) := by
  constructor
  · intro k v rest hdict hnone
    subst hdict
    simp [resolve_calendar, hnone, alookup]
  · intro n hsome
    simp [resolve_calendar, hsome]

/-- C3 witness: the amended theorem applied to an empty assignment map and
a one-calendar dict. -/
theorem resolve_calendar_first_available_witness :
    resolve_calendar [] [("personal", "p1")] "d0" 0 = some "p1" :=
  (resolve_calendar_first_available [] [("personal", "p1")] "d0" 0).1 "personal" "p1" [] rfl rfl

/-- C7: `parse_things_date` is total (it yields `none` or a timestamp, and
never raises): `None` and the empty string yield absent, an unparseable
string yields absent, and an ISO-8601 string with a literal Z suffix yields
the corresponding timestamp. -/
theorem parse_things_date_total_spec :
    parse_things_date none = none ∧
    parse_things_date (some "") = none ∧
    parse_things_date (some "not a date") = none ∧
    parse_things_date (some "2023-10-15T14:30:00Z") = some dtOct15 ∧
    ∀ s, parse_things_date (some s) = none ∨ ∃ d, parse_things_date (some s) = some d := by
  refine ⟨rfl, rfl, by decide, by decide, ?_⟩
  intro s
  cases h : parse_things_date (some s) with
  | none => exact Or.inl rfl
  | some d => exact Or.inr ⟨d, rfl⟩

/-- C9 counterexample: calling each metadata loader twice performs two
fetches from the source collaborator, not one — refuting the claim that a
second call performs no further fetch. -/
theorem process_metadata_fetch_twice_counterexample :
    (process_areas {} ((process_areas {} ({} : MetaState)).1)).1.get_areas_calls = 2 ∧
    (process_areas {} ((process_areas {} ({} : MetaState)).1)).1.get_areas_calls ≠ 1 ∧
    (process_projects {} ((process_projects {} ({} : MetaState)).1)).1.get_projects_calls = 2 ∧
    (process_projects {} ((process_projects {} ({} : MetaState)).1)).1.get_projects_calls ≠ 1 ∧
    (process_tags {} ((process_tags {} ({} : MetaState)).1)).1.get_tags_calls = 2 ∧
    (process_tags {} ((process_tags {} ({} : MetaState)).1)).1.get_tags_calls ≠ 1 := by
  decide

/-- C9 amended: `process_areas`, `process_projects` and `process_tags`
fetch from the source collaborator on every call (a second call performs a
second fetch, there is no caching guard); because the maps are rebuilt by
overwriting the same keys, a second call against the same collaborator
data returns a map pointwise equal to the one returned by the first call. -/
theorem process_metadata_refetch (env : MetaEnv) (s : MetaState) (k : Option String) :
    ((process_areas env (process_areas env s).1).1.get_areas_calls = s.get_areas_calls + 2 ∧
      alookup (process_areas env (process_areas env s).1).2 k =
        alookup (process_areas env s).2 k) ∧
    ((process_projects env (process_projects env s).1).1.get_projects_calls =
        s.get_projects_calls + 2 ∧
      alookup (process_projects env (process_projects env s).1).2 k =
        alookup (process_projects env s).2 k) ∧
    ((process_tags env (process_tags env s).1).1.get_tags_calls = s.get_tags_calls + 2 ∧
      alookup (process_tags env (process_tags env s).1).2 k =
        alookup (process_tags env s).2 k) := by
  refine ⟨⟨?_, ?_⟩, ⟨?_, ?_⟩, ⟨?_, ?_⟩⟩ <;>
    simp [process_areas, process_projects, process_tags, buildFold_idem]

/-- C10 counterexample: a source task whose title key is present but empty
produces an empty destination title, refuting the non-empty-title claim as
stated for every task. -/
theorem reminder_title_empty_counterexample :
    (get_reminder_params_from_todo todoEmptyTitle none).title = "" := by
  decide

/-- C10 amended: the destination title is the source title when the title
key is present and the fixed placeholder "Untitled Task" when it is
absent; consequently the title is non-empty for every task whose present
title is non-empty (in particular for every task lacking a title). -/
theorem reminder_title_amended (todo : Todo) (cid : Option String)
    (h : ∀ s, todo.title = some s → s ≠ "") :
    (get_reminder_params_from_todo todo cid).title = todo.title.getD "Untitled Task" ∧
    (get_reminder_params_from_todo todo cid).title ≠ "" := by
  have ht : (get_reminder_params_from_todo todo cid).title = todo.title.getD "Untitled Task" := by
    simp only [get_reminder_params_from_todo]
    split <;> (try split) <;> (try split) <;> rfl
  refine ⟨ht, ?_⟩
  rw [ht]
  cases hx : todo.title with
  | none => decide
  | some s => simpa using h s hx

/-- C10 witness: the amended theorem applied to a todo without a title. -/
theorem reminder_title_amended_witness :
    (get_reminder_params_from_todo todoBlank none).title ≠ "" :=
  (reminder_title_amended todoBlank none (fun _ hs => nomatch hs)).2

theorem parse_things_date_of_not_truthy (od : Option String) (h : truthyStr od = false) :
    parse_things_date od = none := by
  cases od with
  | none => rfl
  | some s =>
    have hs : s = "" := by simpa [truthyStr] using h
    subst hs
    rfl

theorem ite_append_push (c : Prop) [Decidable c] (X a : List α) :
    (if c then X ++ a else X) = X ++ (if c then a else []) := by
  split <;> simp

theorem ite_append_push3 (c : Prop) [Decidable c] (X a b : List α) :
    (if c then X ++ a else X ++ b) = X ++ (if c then a else b) := by
  split <;> rfl

theorem strAppend_assoc (a b c : String) : a ++ b ++ c = a ++ (b ++ c) := by
  obtain ⟨la⟩ := a
  obtain ⟨lb⟩ := b
  obtain ⟨lc⟩ := c
  show String.mk ((la ++ lb) ++ lc) = String.mk (la ++ (lb ++ lc))
  rw [List.append_assoc]

theorem joinSep_concat (sep x : String) : ∀ l : List String, ∃ p, joinSep sep (l ++ [x]) = p ++ x := by
  intro l
  induction l with
  | nil =>
    refine ⟨"", ?_⟩
    show joinSep sep [x] = "" ++ x
    obtain ⟨lx⟩ := x
    rfl
  | cons a t ih =>
    obtain ⟨p, hp⟩ := ih
    cases t with
    | nil =>
      refine ⟨a ++ sep, ?_⟩
      show joinSep sep [a, x] = a ++ sep ++ x
      rfl
    | cons b t2 =>
      refine ⟨a ++ sep ++ p, ?_⟩
      show a ++ sep ++ joinSep sep ((b :: t2) ++ [x]) = a ++ sep ++ p ++ x
      rw [hp]
      exact (strAppend_assoc (a ++ sep) p x).symm

/-- C5 counterexample: a task with an unparseable deadline and start
category exactly Anytime gets neither the flagged mark nor the early
reminder, refuting the claim that every task with a deadline and start
Anytime carries them. -/
theorem params_flagged_counterexample :
    truthyStr todoBadDeadline.deadline = true ∧
    todoBadDeadline.start = some "Anytime" ∧
    (get_reminder_params_from_todo todoBadDeadline none).flagged ≠ some true ∧
    (get_reminder_params_from_todo todoBadDeadline none).early_reminder_date = none := by
  decide

/-- C5 amended: the due date is the parsed deadline when a non-empty
deadline string is present (absent when it fails to parse), else the
parsed when-date when a non-empty when string is present, else absent;
priority is obtained via `map_priority`; and when the task has a non-empty
deadline, its start category is exactly Anytime AND the due date is
present (the deadline parsed), the parameters additionally carry an early
reminder equal to the due date minus one day and flagged=true — otherwise
both extra keys are absent. -/
theorem get_reminder_params_spec (todo : Todo) (cid : Option String) :
    (get_reminder_params_from_todo todo cid).due_date =
      (if truthyStr todo.deadline then parse_things_date todo.deadline
       else if truthyStr todo.when then parse_things_date todo.when
       else none) ∧
    (get_reminder_params_from_todo todo cid).priority = map_priority (todo.priority.getD 0) ∧
    (truthyStr todo.deadline = true → todo.start = some "Anytime" →
      ∀ d, (get_reminder_params_from_todo todo cid).due_date = some d →
        (get_reminder_params_from_todo todo cid).early_reminder_date = some (subOneDay d) ∧
        (get_reminder_params_from_todo todo cid).flagged = some true) ∧
    (¬(truthyStr todo.deadline = true ∧ todo.start = some "Anytime") →
      (get_reminder_params_from_todo todo cid).early_reminder_date = none ∧
      (get_reminder_params_from_todo todo cid).flagged = none) := by
  have hdd : (get_reminder_params_from_todo todo cid).due_date =
      (if truthyStr todo.deadline then parse_things_date todo.deadline
       else if truthyStr todo.when then parse_things_date todo.when
       else none) := by
    simp only [get_reminder_params_from_todo]
    split <;> (try split) <;> (try split) <;> rfl
  refine ⟨hdd, ?_, ?_, ?_⟩
  · simp only [get_reminder_params_from_todo]
    split <;> (try split) <;> (try split) <;> rfl
  · intro h1 h2 d hd
    rw [hdd] at hd
    have hcond : truthyStr todo.deadline = true ∧ todo.start = some "Anytime" := ⟨h1, h2⟩
    constructor
    · simp only [get_reminder_params_from_todo, if_pos hcond, hd]
    · simp only [get_reminder_params_from_todo, if_pos hcond, hd]
  · intro hn
    constructor
    · simp only [get_reminder_params_from_todo, if_neg hn]
      split <;> rfl
    · simp only [get_reminder_params_from_todo, if_neg hn]
      split <;> rfl

/-- C5 witness: the amended theorem applied to a todo whose deadline
parses and whose start category is Anytime. -/
theorem get_reminder_params_spec_witness :
    (get_reminder_params_from_todo todoAnytime none).early_reminder_date =
      some (subOneDay dtOct15) ∧
    (get_reminder_params_from_todo todoAnytime none).flagged = some true :=
  (get_reminder_params_spec todoAnytime none).2.2.1 (by decide) (by decide) dtOct15 (by decide)

/-- C6: for every task, the rendered notes are the blank-line-separated
concatenation, in fixed order, of original notes, status annotation for
completed or canceled tasks, start annotation, date-only deadline
annotation when the deadline parses, the checklist block (header line
then one line per item marked as done or open), each present only when
its source data exists, followed by the source-reference footer, which is
present even when every other section is absent. -/
theorem get_reminder_notes_structure (todo : Todo) :
    get_reminder_notes_from_todo todo =
      joinSep "\n\n"
        ((if truthyStr todo.notes then [todo.notes.getD ""] else []) ++
         (if todo.status.getD "incomplete" = "completed" then ["Status: ✓ Completed"]
          else if todo.status.getD "incomplete" = "canceled" then ["Status: ✗ Canceled"]
          else []) ++
         (if truthyStr todo.start then ["Start: " ++ todo.start.getD ""] else []) ++
         (match parse_things_date todo.deadline with
          | some date_obj => ["Deadline: " ++ strftimeYMD date_obj]
          | none => []) ++
         (if truthyList todo.checklist then
            [joinSep "\n" ("Checklist:" ::
              (todo.checklist.getD []).map (fun item =>
                (if item.status = some "completed" then "✓" else "☐") ++ " " ++
                  item.title.getD ""))]
          else []) ++
         ["Imported from Things - UUID: " ++ todo.uuid.getD ""]) ∧
    ∃ p, get_reminder_notes_from_todo todo =
      p ++ ("Imported from Things - UUID: " ++ todo.uuid.getD "") := by
  have hstruct : get_reminder_notes_from_todo todo =
      joinSep "\n\n"
        ((if truthyStr todo.notes then [todo.notes.getD ""] else []) ++
         (if todo.status.getD "incomplete" = "completed" then ["Status: ✓ Completed"]
          else if todo.status.getD "incomplete" = "canceled" then ["Status: ✗ Canceled"]
          else []) ++
         (if truthyStr todo.start then ["Start: " ++ todo.start.getD ""] else []) ++
         (match parse_things_date todo.deadline with
          | some date_obj => ["Deadline: " ++ strftimeYMD date_obj]
          | none => []) ++
         (if truthyList todo.checklist then
            [joinSep "\n" ("Checklist:" ::
              (todo.checklist.getD []).map (fun item =>
                (if item.status = some "completed" then "✓" else "☐") ++ " " ++
                  item.title.getD ""))]
          else []) ++
         ["Imported from Things - UUID: " ++ todo.uuid.getD ""]) := by
    simp only [get_reminder_notes_from_todo]
    cases hd : parse_things_date todo.deadline with
    | none =>
      simp only [ite_append_push, ite_append_push3, ite_self]
      simp [List.append_assoc]
    | some date_obj =>
      have htd : truthyStr todo.deadline = true := by
        cases htd2 : truthyStr todo.deadline
        · rw [parse_things_date_of_not_truthy todo.deadline htd2] at hd
          cases hd
        · rfl
      simp only [htd, eq_self_iff_true, if_true, ite_append_push, ite_append_push3]
      simp [List.append_assoc]
  refine ⟨hstruct, ?_⟩
  rw [hstruct]
  exact joinSep_concat "\n\n" _ _

theorem lineAssign?_eq_some_iff (dict : List (String × String)) (line : String) (idx : Int)
    (name : String) :
    lineAssign? dict line = some (idx, name) ↔ lineAssigns dict line idx name := by
  unfold lineAssign? lineAssigns
  rcases hs : splitFirstColon line with _ | ⟨l, r⟩
  · simp
  · cases hi : pyInt? (pyStrip l) with
    | none =>
      simp only [hi]
      constructor
      · intro h; cases h
      · rintro ⟨l2, r2, hlr, hint, _⟩
        obtain ⟨rfl, rfl⟩ : l2 = l ∧ r2 = r := by
          have := hlr
          simp only [Option.some.injEq, Prod.mk.injEq] at this
          exact ⟨this.1.symm, this.2.symm⟩
        rw [hi] at hint
        cases hint
    | some i =>
      simp only [hi]
      constructor
      · intro h
        by_cases hmem : (alookup dict (pyLower (pyStrip r))).isSome = true
        · rw [if_pos hmem] at h
          obtain ⟨rfl, rfl⟩ : i = idx ∧ pyLower (pyStrip r) = name := by
            simpa using h
          exact ⟨l, r, rfl, hi, rfl, hmem⟩
        · rw [if_neg hmem] at h
          cases h
      · rintro ⟨l2, r2, hlr, hint, hname, hmem⟩
        obtain ⟨rfl, rfl⟩ : l2 = l ∧ r2 = r := by
          have := hlr
          simp only [Option.some.injEq, Prod.mk.injEq] at this
          exact ⟨this.1.symm, this.2.symm⟩
        rw [hi] at hint
        obtain rfl : i = idx := by simpa using hint
        subst hname
        rw [if_pos hmem]

theorem foldl_parseStep_alookup (dict : List (String × String)) (lines : List String) :
    ∀ (acc : List (Int × String)) (idx : Int),
      alookup (lines.foldl (parseStep dict) acc) idx =
        match lines.reverse.find?
            (fun line => decide ((lineAssign? dict line).map Prod.fst = some idx)) with
        | some line => (lineAssign? dict line).map Prod.snd
        | none => alookup acc idx := by
  induction lines with
  | nil => intro acc idx; simp
  | cons line ls ih =>
    intro acc idx
    have hstep : (line :: ls).foldl (parseStep dict) acc =
        ls.foldl (parseStep dict) (parseStep dict acc line) := rfl
    rw [hstep, ih]
    have hrev : (line :: ls).reverse = ls.reverse ++ [line] := by simp
    rw [hrev, find?_append]
    cases hf : ls.reverse.find?
        (fun l2 => decide ((lineAssign? dict l2).map Prod.fst = some idx)) with
    | some l2 => simp
    | none =>
      cases ha : lineAssign? dict line with
      | none => simp [parseStep, ha, List.find?]
      | some pr =>
        obtain ⟨i, n⟩ := pr
        by_cases hik : i = idx
        · subst hik
          simp [parseStep, ha, List.find?, alookup_dictInsert]
        · simp [parseStep, ha, List.find?, alookup_dictInsert, hik, Ne.symm hik]

/-- C4: the classifier output parser is total and strict — an index has an
entry in the parsed assignment map exactly when some stripped stdout line
contains a colon, the text left of the first colon parses as that integer
index after trimming, and the trimmed lower-cased text right of the colon
is a member of the available-calendar dict; moreover every entry value is
such a member produced by such a line (lines failing any check contribute
nothing). -/
theorem parse_calendar_assignments_spec (stdout : String) (dict : List (String × String))
    (idx : Int) :
    ((alookup (parse_calendar_assignments stdout dict) idx).isSome = true ↔
      ∃ line ∈ pySplitOnChar '\n' (pyStrip stdout), ∃ name, lineAssigns dict line idx name) ∧
    (∀ name, alookup (parse_calendar_assignments stdout dict) idx = some name →
      (alookup dict name).isSome = true ∧
      ∃ line ∈ pySplitOnChar '\n' (pyStrip stdout), lineAssigns dict line idx name) := by
  have heq : alookup (parse_calendar_assignments stdout dict) idx =
      match (pySplitOnChar '\n' (pyStrip stdout)).reverse.find?
          (fun line => decide ((lineAssign? dict line).map Prod.fst = some idx)) with
      | some line => (lineAssign? dict line).map Prod.snd
      | none => none := by
    have h := foldl_parseStep_alookup dict (pySplitOnChar '\n' (pyStrip stdout)) [] idx
    simpa [parse_calendar_assignments, alookup] using h
  constructor
  · rw [heq]
    cases hf : (pySplitOnChar '\n' (pyStrip stdout)).reverse.find?
        (fun line => decide ((lineAssign? dict line).map Prod.fst = some idx)) with
    | none =>
      simp only [Option.isSome_none]
      constructor
      · intro h; cases h
      · rintro ⟨line, hmem, name, hassign⟩
        have hp := List.find?_eq_none.mp hf line (by simpa using hmem)
        have hsome : lineAssign? dict line = some (idx, name) :=
          (lineAssign?_eq_some_iff dict line idx name).mpr hassign
        rw [hsome] at hp
        simp at hp
    | some line =>
      have hmem : line ∈ (pySplitOnChar '\n' (pyStrip stdout)).reverse :=
        List.mem_of_find?_eq_some hf
      have hp : (lineAssign? dict line).map Prod.fst = some idx := by
        simpa using List.find?_some hf
      cases ha : lineAssign? dict line with
      | none => rw [ha] at hp; cases hp
      | some pr =>
        obtain ⟨i, n⟩ := pr
        rw [ha] at hp
        obtain rfl : i = idx := by simpa using hp
        constructor
        · intro _
          refine ⟨line, by simpa using hmem, n, ?_⟩
          exact (lineAssign?_eq_some_iff dict line i n).mp ha
        · intro _
          show ((lineAssign? dict line).map Prod.snd).isSome = true
          rw [ha]
          rfl
  · intro name h
    rw [heq] at h
    cases hf : (pySplitOnChar '\n' (pyStrip stdout)).reverse.find?
        (fun line => decide ((lineAssign? dict line).map Prod.fst = some idx)) with
    | none => rw [hf] at h; cases h
    | some line =>
      rw [hf] at h
      have h2 : (lineAssign? dict line).map Prod.snd = some name := h
      have hmem : line ∈ (pySplitOnChar '\n' (pyStrip stdout)).reverse :=
        List.mem_of_find?_eq_some hf
      have hp : (lineAssign? dict line).map Prod.fst = some idx := by
        simpa using List.find?_some hf
      cases ha : lineAssign? dict line with
      | none => rw [ha] at hp; cases hp
      | some pr =>
        obtain ⟨i, n⟩ := pr
        rw [ha] at hp
        obtain rfl : i = idx := by simpa using hp
        rw [ha] at h2
        obtain rfl : n = name := by simpa using h2
        have hassigns : lineAssigns dict line i n :=
          (lineAssign?_eq_some_iff dict line i n).mp ha
        refine ⟨?_, line, by simpa using hmem, hassigns⟩
        obtain ⟨l2, r2, _, _, _, hmem2⟩ := hassigns
        exact hmem2

/-- C4 witness: the characterization applied to the concrete line
`0: personal` with the available set containing personal. -/
theorem parse_calendar_assignments_spec_witness :
    (alookup (parse_calendar_assignments "0: personal" [("personal", "p1")]) 0).isSome = true :=
  (parse_calendar_assignments_spec "0: personal" [("personal", "p1")] 0).1.mpr
    ⟨"0: personal", by decide, "personal", "0", " personal", by decide, by decide, by decide,
     by decide⟩

theorem addTodos_selInv (l : List Todo) :
    ∀ st : List Todo × List String, SelInv st → SelInv (addTodos st l) := by
  induction l with
  | nil => intro st h; exact h
  | cons todo rest ih =>
    intro st h
    have hstep : addTodos st (todo :: rest) =
        addTodos
          (match todo.uuid with
           | some u => if u ≠ "" ∧ u ∉ st.2 then (st.1 ++ [todo], st.2 ++ [u]) else st
           | none => st) rest := rfl
    rw [hstep]
    apply ih
    cases hu : todo.uuid with
    | none => exact h
    | some u =>
      show SelInv (if u ≠ "" ∧ u ∉ st.2 then (st.1 ++ [todo], st.2 ++ [u]) else st)
      by_cases hc : u ≠ "" ∧ u ∉ st.2
      · rw [if_pos hc]
        obtain ⟨h1, h2⟩ := h
        constructor
        · rw [List.map_append]
          rw [List.nodup_append]
          refine ⟨h1, by simp, ?_⟩
          intro x hx hx2
          have hxu : x = todo.uuid := by simpa using hx2
          rcases List.mem_map.mp hx with ⟨t2, ht2, hxt⟩
          have huu : t2.uuid = some u := by rw [hxt, hxu, hu]
          exact hc.2 (h2 t2 ht2 u huu)
        · intro t ht u2 hu2
          rcases List.mem_append.mp ht with hin | hin
          · exact List.mem_append.mpr (Or.inl (h2 t hin u2 hu2))
          · have hteq : t = todo := by simpa using hin
            subst hteq
            rw [hu] at hu2
            have : u2 = u := by simpa using hu2.symm
            subst this
            exact List.mem_append.mpr (Or.inr (by simp))
      · rw [if_neg hc]
        exact h

theorem filter_selInv (p : Todo → Bool) (st : List Todo × List String) (h : SelInv st) :
    SelInv (st.1.filter p, st.2) := by
  obtain ⟨h1, h2⟩ := h
  constructor
  · exact List.Nodup.sublist (List.Sublist.map Todo.uuid (List.filter_sublist st.1)) h1
  · intro t ht u hu
    exact h2 t (List.mem_of_mem_filter ht) u hu

theorem selInv_ite (c : Prop) [Decidable c]
    (f : List Todo × List String → List Todo × List String)
    (st : List Todo × List String) (hf : ∀ s2, SelInv s2 → SelInv (f s2)) (h : SelInv st) :
    SelInv (if c then f st else st) := by
  split
  · exact hf st h
  · exact h

/-- C8: for every combination of filter options and source-view contents,
the mapped uuids of the task list selected for export by
`export_with_options` are pairwise distinct — each task identifier appears
at most once even when several enabled views return the same task. -/
theorem select_todos_dedup (env : ThingsEnv) (tag_map : List (String × String))
    (o : FilterOptions) :
    ((select_todos_with_options env tag_map o).map Todo.uuid).Nodup := by
  have hinv : SelInv (select_state env tag_map o) := by
    simp only [select_state]
    refine selInv_ite _ (fun s => addTodos s env.canceled_tasks) _
      (fun s hs => addTodos_selInv _ s hs) ?_
    refine selInv_ite _
      (fun s => addTodos s (env.completed_tasks
        (if truthyStr o.completed_last then o.completed_last else none))) _
      (fun s hs => addTodos_selInv _ s hs) ?_
    refine selInv_ite _
      (fun s => (s.1.filter
        (fun todo => (tagNames tag_map todo).contains (o.filter_tag.getD "")), s.2)) _
      (fun s hs => filter_selInv _ s hs) ?_
    refine selInv_ite _ (fun s => addTodos s env.active_todos) _
      (fun s hs => addTodos_selInv _ s hs) ?_
    refine selInv_ite _ (fun s => addTodos s env.deadline_tasks) _
      (fun s hs => addTodos_selInv _ s hs) ?_
    refine selInv_ite _ (fun s => addTodos s env.someday_tasks) _
      (fun s hs => addTodos_selInv _ s hs) ?_
    refine selInv_ite _ (fun s => addTodos s env.upcoming_tasks) _
      (fun s hs => addTodos_selInv _ s hs) ?_
    refine selInv_ite _ (fun s => addTodos s env.inbox_tasks) _
      (fun s hs => addTodos_selInv _ s hs) ?_
    refine selInv_ite _ (fun s => addTodos s env.today_tasks) _
      (fun s hs => addTodos_selInv _ s hs) ?_
    exact ⟨List.nodup_nil, fun t ht => absurd ht (List.not_mem_nil t)⟩
  exact hinv.1
